import Mathlib

/-!
# HostPilot webhook ingestion — shallow embedding

This file embeds the webhook-ingestion core of the HostPilot repository:

* the zod event schema `lodgifyWebhookEventSchema`
  (src/lib/lodgifyWebhookEventSchema.ts) as an executable decoder over a
  JSON value type;
* the schema-validated webhook handler and its `handleBookingChange`
  (the Next.js API route using `lodgifyWebhookEventSchema.parse`);
* the booking branch of the legacy, un-validated handler
  (src/pages/api/lodgify-webhook.ts), for comparison.

Modelling conventions:

* JSON numbers are modelled as `Int` (all numeric payload fields in scope
  are ids/counts); timestamps are epoch milliseconds, as returned by
  JavaScript `Date.getTime()`.
* JavaScript `NaN`-producing operations are modelled with `Option`:
  `new Date(s).getTime()` becomes `dateParse : String → Option Int`
  (`none` = invalid date / NaN) and `parseFloat` becomes
  `String → Option ℚ` (`none` = NaN).  A `<` comparison involving NaN is
  false in JavaScript; `jsLtQ` reproduces that.
* The persistence collaborator (`prisma.reservationUpdate.create`) is
  modelled by an outcome oracle `dbOk : Nat → Bool` giving the success of
  the i-th create call of the request; a failed create is caught and
  contributes nothing (the code logs and continues).
-/

namespace HostPilot

/-- JSON values, as delivered in the request body. -/
inductive Json where
  | null : Json
  | bool : Bool → Json
  | num : Int → Json
  | str : String → Json
  | arr : List Json → Json
  | obj : List (String × Json) → Json
deriving Repr

/-- Decidable equality for `Json` (nested inductive, so written by hand). -/
def Json.beq : Json → Json → Bool
  | .null, .null => true
  | .bool a, .bool b => a == b
  | .num a, .num b => a == b
  | .str a, .str b => a == b
  | .arr a, .arr b => beqList a b
  | .obj a, .obj b => beqFields a b
  | _, _ => false
where
  beqList : List Json → List Json → Bool
    | [], [] => true
    | x :: xs, y :: ys => x.beq y && beqList xs ys
    | _, _ => false
  beqFields : List (String × Json) → List (String × Json) → Bool
    | [], [] => true
    | (k, x) :: xs, (l, y) :: ys => k == l && x.beq y && beqFields xs ys
    | _, _ => false

/-- Field lookup on a JSON object (JavaScript property access). -/
def Json.getField : Json → String → Option Json
  | .obj fields, key => fields.lookup key
  | _, _ => none

/-! ## Typed event variants (output of the zod schema) -/

/-- A room-type line item (`roomTypeSchema`). -/
structure RoomType where
  id : Int
  room_type_id : Int
  image_url : Option String
  name : String
  people : Int
deriving DecidableEq, Repr

/-- A financial amount breakdown (`amountSchema`). -/
structure Amount where
  amount : String
  total_room_rate_amount : String
  total_fees_amount : String
  total_taxes_amount : String
  total_promotions_amount : String
deriving DecidableEq, Repr

/-- The `booking` snapshot of a `booking_change` event. -/
structure Booking where
  type : String
  id : Int
  date_arrival : String
  date_departure : String
  date_created : String
  property_id : Int
  property_name : String
  property_image_url : String
  status : String
  room_types : List RoomType
  add_ons : List Json
  currency_code : String
  source : String
  source_text : String
  notes : Option String
  language : String
  ip_address : Option String
  ip_country : Option String
  is_policy_active : Bool
  external_url : Option String
  nights : Int
  promotion_code : Option String
deriving Repr

/-- The `guest` snapshot of a `booking_change` event. -/
structure Guest where
  uid : String
  name : String
  email : String
  phone_number : String
  country : Option String
  country_code : Option String
deriving DecidableEq, Repr

/-- The `current_order` snapshot of a `booking_change` event. -/
structure CurrentOrder where
  id : Int
  property_id : Int
  currency_code : String
  status : String
  amount_gross : Amount
  amount_net : Amount
  amount_vat : Amount
  date_agreed : Option String
  cancellation_policy_text : Option String
  security_deposit_text : Option String
  scheduled_policy_text : Option String
  rate_policy_name : Option String
  rental_agreement_accepted : Bool
  owner_payout : Int
deriving DecidableEq, Repr

/-- The `subowner` snapshot of a `booking_change` event. -/
structure Subowner where
  user_id : Int
  first_name : String
  last_name : String
  email : String
  phone : String
deriving DecidableEq, Repr

/-- The `total_transactions` object of a `booking_change` event. -/
structure TotalTransactions where
  amount : String
deriving DecidableEq, Repr

/-- A decoded `booking_change` event (`bookingEventSchema`). -/
structure BookingEvent where
  booking : Booking
  guest : Guest
  current_order : CurrentOrder
  subowner : Subowner
  booking_total_amount : String
  booking_currency_code : String
  total_transactions : TotalTransactions
  balance_due : String
deriving Repr

/-- A decoded `rate_change` event (`rateChangeEventSchema`). -/
structure RateChangeEvent where
  property_id : Int
  room_type_ids : List Int
deriving DecidableEq, Repr

/-- A decoded `availability_change` event (`availabilityChangeEventSchema`). -/
structure AvailabilityChangeEvent where
  property_id : Int
  room_type_ids : List Int
  start : String
  end_ : String
  source : String
deriving DecidableEq, Repr

/-- A decoded `guest_message_received` event
(`guestMessageReceivedEventSchema`). -/
structure GuestMessageReceivedEvent where
  thread_uid : String
  message_id : Int
  inbox_uid : String
  guest_name : String
  subject : Option String
  message : String
  creation_time : String
  has_attachments : Bool
  sub_owner_id : Int
deriving DecidableEq, Repr

/-- The tagged union of webhook events, discriminated by `action`
(`z.discriminatedUnion` over the four variant schemas). -/
inductive LodgifyWebhookEvent where
  | booking_change : BookingEvent → LodgifyWebhookEvent
  | rate_change : RateChangeEvent → LodgifyWebhookEvent
  | availability_change : AvailabilityChangeEvent → LodgifyWebhookEvent
  | guest_message_received : GuestMessageReceivedEvent → LodgifyWebhookEvent
deriving Repr

/-! ## The decoder (zod schemas as `Option`-valued parsers)

Each zod `z.object` requires every listed field to be present and
well-typed; `.nullable()` keeps the field required but accepts JSON
`null`; unknown extra fields are ignored (zod strips them). -/

/-- `z.string()` on a field value. -/
def asString : Json → Option String
  | .str s => some s
  | _ => none

/-- `z.number()` on a field value (numbers modelled as `Int`). -/
def asNumber : Json → Option Int
  | .num n => some n
  | _ => none

/-- `z.boolean()` on a field value. -/
def asBool : Json → Option Bool
  | .bool b => some b
  | _ => none

/-- `z.string().nullable()` on a field value. -/
def asNullableString : Json → Option (Option String)
  | .null => some none
  | .str s => some (some s)
  | _ => none

/-- `z.array(inner)` on a field value. -/
def asArray : Json → Option (List Json)
  | .arr xs => some xs
  | _ => none

/-- Required string field. -/
def reqString (j : Json) (key : String) : Option String :=
  (j.getField key).bind asString

/-- Required number field. -/
def reqNumber (j : Json) (key : String) : Option Int :=
  (j.getField key).bind asNumber

/-- Required boolean field. -/
def reqBool (j : Json) (key : String) : Option Bool :=
  (j.getField key).bind asBool

/-- Required nullable-string field. -/
def reqNullString (j : Json) (key : String) : Option (Option String) :=
  (j.getField key).bind asNullableString

/-- `roomTypeSchema`. -/
def parseRoomType (j : Json) : Option RoomType := do
  let id ← reqNumber j "id"
  let room_type_id ← reqNumber j "room_type_id"
  let image_url ← reqNullString j "image_url"
  let name ← reqString j "name"
  let people ← reqNumber j "people"
  pure ⟨id, room_type_id, image_url, name, people⟩

/-- `amountSchema`. -/
def parseAmount (j : Json) : Option Amount := do
  let amount ← reqString j "amount"
  let total_room_rate_amount ← reqString j "total_room_rate_amount"
  let total_fees_amount ← reqString j "total_fees_amount"
  let total_taxes_amount ← reqString j "total_taxes_amount"
  let total_promotions_amount ← reqString j "total_promotions_amount"
  pure ⟨amount, total_room_rate_amount, total_fees_amount,
        total_taxes_amount, total_promotions_amount⟩

/-- First eight fields of the `booking` object schema (split into field
groups only to keep compiled code small; presence/typing of each field is
checked independently, exactly as in the zod object schema). -/
def parseBookingIdFields (j : Json) :
    Option (String × Int × String × String × String × Int × String × String) :=
  (reqString j "type").bind fun type =>
  (reqNumber j "id").bind fun id =>
  (reqString j "date_arrival").bind fun date_arrival =>
  (reqString j "date_departure").bind fun date_departure =>
  (reqString j "date_created").bind fun date_created =>
  (reqNumber j "property_id").bind fun property_id =>
  (reqString j "property_name").bind fun property_name =>
  (reqString j "property_image_url").bind fun property_image_url =>
  some (type, id, date_arrival, date_departure, date_created, property_id,
        property_name, property_image_url)

/-- Middle fields of the `booking` object schema. -/
def parseBookingMidFields (j : Json) :
    Option (String × List RoomType × List Json × String × String × String ×
      Option String) :=
  (reqString j "status").bind fun status =>
  ((j.getField "room_types").bind asArray).bind fun rts =>
  (rts.mapM parseRoomType).bind fun room_types =>
  ((j.getField "add_ons").bind asArray).bind fun add_ons =>
  (reqString j "currency_code").bind fun currency_code =>
  (reqString j "source").bind fun source =>
  (reqString j "source_text").bind fun source_text =>
  (reqNullString j "notes").bind fun notes =>
  some (status, room_types, add_ons, currency_code, source, source_text,
        notes)

/-- Last fields of the `booking` object schema. -/
def parseBookingTailFields (j : Json) :
    Option (String × Option String × Option String × Bool × Option String ×
      Int × Option String) :=
  (reqString j "language").bind fun language =>
  (reqNullString j "ip_address").bind fun ip_address =>
  (reqNullString j "ip_country").bind fun ip_country =>
  (reqBool j "is_policy_active").bind fun is_policy_active =>
  (reqNullString j "external_url").bind fun external_url =>
  (reqNumber j "nights").bind fun nights =>
  (reqNullString j "promotion_code").bind fun promotion_code =>
  some (language, ip_address, ip_country, is_policy_active, external_url,
        nights, promotion_code)

/-- The `booking` object schema inside `bookingEventSchema`: every listed
field must be present and well-typed. -/
def parseBooking (j : Json) : Option Booking :=
  (parseBookingIdFields j).bind fun (type, id, date_arrival, date_departure,
      date_created, property_id, property_name, property_image_url) =>
  (parseBookingMidFields j).bind fun (status, room_types, add_ons,
      currency_code, source, source_text, notes) =>
  (parseBookingTailFields j).bind fun (language, ip_address, ip_country,
      is_policy_active, external_url, nights, promotion_code) =>
  some ⟨type, id, date_arrival, date_departure, date_created, property_id,
        property_name, property_image_url, status, room_types, add_ons,
        currency_code, source, source_text, notes, language, ip_address,
        ip_country, is_policy_active, external_url, nights, promotion_code⟩

/-- The `guest` object schema inside `bookingEventSchema`. -/
def parseGuest (j : Json) : Option Guest := do
  let uid ← reqString j "uid"
  let name ← reqString j "name"
  let email ← reqString j "email"
  let phone_number ← reqString j "phone_number"
  let country ← reqNullString j "country"
  let country_code ← reqNullString j "country_code"
  pure ⟨uid, name, email, phone_number, country, country_code⟩

/-- First seven fields of the `current_order` object schema. -/
def parseOrderHeadFields (j : Json) :
    Option (Int × Int × String × String × Amount × Amount × Amount) :=
  (reqNumber j "id").bind fun id =>
  (reqNumber j "property_id").bind fun property_id =>
  (reqString j "currency_code").bind fun currency_code =>
  (reqString j "status").bind fun status =>
  ((j.getField "amount_gross").bind parseAmount).bind fun amount_gross =>
  ((j.getField "amount_net").bind parseAmount).bind fun amount_net =>
  ((j.getField "amount_vat").bind parseAmount).bind fun amount_vat =>
  some (id, property_id, currency_code, status, amount_gross, amount_net,
        amount_vat)

/-- Last seven fields of the `current_order` object schema. -/
def parseOrderTailFields (j : Json) :
    Option (Option String × Option String × Option String × Option String ×
      Option String × Bool × Int) :=
  (reqNullString j "date_agreed").bind fun date_agreed =>
  (reqNullString j "cancellation_policy_text").bind fun cancellation =>
  (reqNullString j "security_deposit_text").bind fun security =>
  (reqNullString j "scheduled_policy_text").bind fun scheduled =>
  (reqNullString j "rate_policy_name").bind fun rate_policy_name =>
  (reqBool j "rental_agreement_accepted").bind fun rental_accepted =>
  (reqNumber j "owner_payout").bind fun owner_payout =>
  some (date_agreed, cancellation, security, scheduled, rate_policy_name,
        rental_accepted, owner_payout)

/-- The `current_order` object schema inside `bookingEventSchema`. -/
def parseCurrentOrder (j : Json) : Option CurrentOrder :=
  (parseOrderHeadFields j).bind fun (id, property_id, currency_code, status,
      amount_gross, amount_net, amount_vat) =>
  (parseOrderTailFields j).bind fun (date_agreed, cancellation, security,
      scheduled, rate_policy_name, rental_accepted, owner_payout) =>
  some ⟨id, property_id, currency_code, status, amount_gross, amount_net,
        amount_vat, date_agreed, cancellation, security, scheduled,
        rate_policy_name, rental_accepted, owner_payout⟩

/-- The `subowner` object schema inside `bookingEventSchema`. -/
def parseSubowner (j : Json) : Option Subowner := do
  let user_id ← reqNumber j "user_id"
  let first_name ← reqString j "first_name"
  let last_name ← reqString j "last_name"
  let email ← reqString j "email"
  let phone ← reqString j "phone"
  pure ⟨user_id, first_name, last_name, email, phone⟩

/-- `bookingEventSchema` (the `action` literal is checked by the
discriminated union before this runs). -/
def parseBookingEvent (j : Json) : Option BookingEvent :=
  ((j.getField "booking").bind parseBooking).bind fun booking =>
  ((j.getField "guest").bind parseGuest).bind fun guest =>
  ((j.getField "current_order").bind parseCurrentOrder).bind fun current_order =>
  ((j.getField "subowner").bind parseSubowner).bind fun subowner =>
  (reqString j "booking_total_amount").bind fun booking_total_amount =>
  (reqString j "booking_currency_code").bind fun booking_currency_code =>
  (j.getField "total_transactions").bind fun tt =>
  (reqString tt "amount").bind fun tt_amount =>
  (reqString j "balance_due").bind fun balance_due =>
  some ⟨booking, guest, current_order, subowner, booking_total_amount,
        booking_currency_code, ⟨tt_amount⟩, balance_due⟩

/-- `rateChangeEventSchema` (body after the `action` literal). -/
def parseRateChangeEvent (j : Json) : Option RateChangeEvent := do
  let property_id ← reqNumber j "property_id"
  let ids ← (j.getField "room_type_ids").bind asArray
  let room_type_ids ← ids.mapM asNumber
  pure ⟨property_id, room_type_ids⟩

/-- `availabilityChangeEventSchema` (body after the `action` literal). -/
def parseAvailabilityChangeEvent (j : Json) : Option AvailabilityChangeEvent := do
  let property_id ← reqNumber j "property_id"
  let ids ← (j.getField "room_type_ids").bind asArray
  let room_type_ids ← ids.mapM asNumber
  let start ← reqString j "start"
  let end_ ← reqString j "end"
  let source ← reqString j "source"
  pure ⟨property_id, room_type_ids, start, end_, source⟩

/-- `guestMessageReceivedEventSchema` (body after the `action` literal). -/
def parseGuestMessageReceivedEvent (j : Json) : Option GuestMessageReceivedEvent := do
  let thread_uid ← reqString j "thread_uid"
  let message_id ← reqNumber j "message_id"
  let inbox_uid ← reqString j "inbox_uid"
  let guest_name ← reqString j "guest_name"
  let subject ← reqNullString j "subject"
  let message ← reqString j "message"
  let creation_time ← reqString j "creation_time"
  let has_attachments ← reqBool j "has_attachments"
  let sub_owner_id ← reqNumber j "sub_owner_id"
  pure ⟨thread_uid, message_id, inbox_uid, guest_name, subject, message,
        creation_time, has_attachments, sub_owner_id⟩

/-- `z.discriminatedUnion("action", [...])`: classify by the literal value
of the `action` field, then apply the matching variant schema; a missing,
non-string or unrecognized `action` fails the element. -/
def parseWebhookEvent (j : Json) : Option LodgifyWebhookEvent :=
  match (j.getField "action").bind asString with
  | some "booking_change" => (parseBookingEvent j).map .booking_change
  | some "rate_change" => (parseRateChangeEvent j).map .rate_change
  | some "availability_change" =>
      (parseAvailabilityChangeEvent j).map .availability_change
  | some "guest_message_received" =>
      (parseGuestMessageReceivedEvent j).map .guest_message_received
  | _ => none

/-- `lodgifyWebhookEventSchema = z.union([discriminatedUnion, z.array(
discriminatedUnion)])`: first try the single-event schema, then the array
schema, where every array element must decode. -/
def parseWebhookPayload (j : Json) :
    Option (LodgifyWebhookEvent ⊕ List LodgifyWebhookEvent) :=
  match parseWebhookEvent j with
  | some e => some (.inl e)
  | none =>
      match j with
      | .arr xs => (xs.mapM parseWebhookEvent).map .inr
      | _ => none

/-! ## Dispatch policy (`handleBookingChange` and the request handler) -/

/-- A persisted `ReservationUpdate` row, as written by
`prisma.reservationUpdate.create`.  Dates are the stored `Date` values
(epoch ms; `none` models an invalid-date `Date`). -/
structure ReservationUpdate where
  guestName : String
  checkInDate : Option Int
  checkOutDate : Option Int
  status : String
  listingId : String
deriving DecidableEq, Repr

/-- Ambient context of one request: the JavaScript date parser
(`new Date(s).getTime()`, `none` = invalid date / NaN), `parseFloat`
(`none` = NaN), the `CLEAN_NOTIFY_THRESHOLD_HOURS` environment variable
(`none` = unset), and the clock `Date.now()` in epoch ms. -/
structure Ctx where
  dateParse : String → Option Int
  parseFloatFn : String → Option ℚ
  envThreshold : Option String
  now : Int

/-- JavaScript `<` on numbers that may be NaN: any comparison involving
NaN is false. -/
def jsLtQ : Option ℚ → Option ℚ → Bool
  | some a, some b => decide (a < b)
  | _, _ => false

/-- JavaScript `s || '72'` for `process.env.CLEAN_NOTIFY_THRESHOLD_HOURS`:
`undefined` and the empty string are falsy and fall back to `'72'`. -/
def thresholdString (env : Option String) : String :=
  match env with
  | none => "72"
  | some s => if s = "" then "72" else s

/-- `parseFloat(process.env.CLEAN_NOTIFY_THRESHOLD_HOURS || '72')`. -/
def threshold (ctx : Ctx) : Option ℚ :=
  ctx.parseFloatFn (thresholdString ctx.envThreshold)

/-- `(checkIn - Date.now()) / 36e5`: hours until arrival, NaN if the
arrival date failed to parse. -/
def hoursUntilArrival (ctx : Ctx) (date_arrival : String) : Option ℚ :=
  (ctx.dateParse date_arrival).map fun checkIn =>
    ((checkIn : ℚ) - (ctx.now : ℚ)) / 3600000

/-- JavaScript `s || ''` (used for `ev.guest.name || ''`): an empty string
is falsy and is replaced by the default. -/
def jsStringOr (s d : String) : String :=
  if s = "" then d else s

/-- The row `handleBookingChange` passes to
`prisma.reservationUpdate.create`. -/
def bookingChangeRecord (ctx : Ctx) (ev : BookingEvent) : ReservationUpdate :=
  { guestName := jsStringOr ev.guest.name ""
    checkInDate := ctx.dateParse ev.booking.date_arrival
    checkOutDate := ctx.dateParse ev.booking.date_departure
    status := ev.booking.status
    listingId := toString ev.booking.property_id }

/-- `handleBookingChange` of the schema-validated handler: the record it
creates, or `none` when `hours < threshold` fails (no record, no
notification).  The persistence call itself is applied by the event loop
(`processEvents`) through the outcome oracle. -/
def handleBookingChange (ctx : Ctx) (ev : BookingEvent) :
    Option ReservationUpdate :=
  if jsLtQ (hoursUntilArrival ctx ev.booking.date_arrival) (threshold ctx) then
    some (bookingChangeRecord ctx ev)
  else
    none

/-- The event loop of the schema-validated handler: iterate the decoded
events in order; on a `booking_change` run `handleBookingChange` and, when
it attempts a create, record the row exactly when the i-th create call
succeeds (`dbOk i`); a failed create is caught, logged and skipped; other
actions only log.  Returns the rows persisted by this request, in creation
order. -/
def processEvents (ctx : Ctx) (dbOk : Nat → Bool) :
    List LodgifyWebhookEvent → Nat → List ReservationUpdate
  | [], _ => []
  | .booking_change ev :: rest, i =>
      match handleBookingChange ctx ev with
      | some r =>
          (if dbOk i then [r] else []) ++ processEvents ctx dbOk rest (i + 1)
      | none => processEvents ctx dbOk rest i
  | .rate_change _ :: rest, i => processEvents ctx dbOk rest i
  | .availability_change _ :: rest, i => processEvents ctx dbOk rest i
  | .guest_message_received _ :: rest, i => processEvents ctx dbOk rest i

/-- An inbound HTTP request, as handed to the API route by Next.js. -/
structure HttpRequest where
  method : String
  body : Json

/-- The response bodies the handler can produce. -/
inductive BodyMsg where
  /-- `'Method Not Allowed'` (405). -/
  | methodNotAllowed : BodyMsg
  /-- `{ error: 'Invalid webhook payload', details: ... }` (400). -/
  | invalidPayload : BodyMsg
  /-- `{ message: 'Event(s) processed' }` (200). -/
  | processed : BodyMsg
deriving DecidableEq, Repr

/-- The handler's response: status code, the `Allow` header if set, and
which body was sent. -/
structure HttpResponse where
  status : Nat
  allow : Option String
  body : BodyMsg
deriving DecidableEq, Repr

/-- `Array.isArray(event) ? event : [event]`: the decoded payload as an
event list. -/
def eventList :
    LodgifyWebhookEvent ⊕ List LodgifyWebhookEvent → List LodgifyWebhookEvent
  | .inl e => [e]
  | .inr es => es

/-- The schema-validated webhook handler: reject non-POST with 405 and
`Allow: POST`; parse the body with `lodgifyWebhookEventSchema` and reject
failures with 400; otherwise wrap a single event as a one-element array,
process the events in order, and answer 200.  The second component is the
list of rows persisted by this request, in creation order. -/
def handler (ctx : Ctx) (dbOk : Nat → Bool) (req : HttpRequest) :
    HttpResponse × List ReservationUpdate :=
  if req.method ≠ "POST" then
    (⟨405, some "POST", .methodNotAllowed⟩, [])
  else
    match parseWebhookPayload req.body with
    | none => (⟨400, none, .invalidPayload⟩, [])
    | some parsed =>
        (⟨200, none, .processed⟩, processEvents ctx dbOk (eventList parsed) 0)

/-! ## Legacy handler's booking branch (src/pages/api/lodgify-webhook.ts)

The legacy route performs no runtime validation; on the same
`booking_change` data it runs the same lead-time check but stores a mapped
status derived from the raw payload's optional top-level `type` field
(`'booking_created' → 'created'`, `'booking_canceled' → 'canceled'`,
otherwise `'changed'`) instead of the booking's raw status string. -/

/-- The status string the legacy handler stores, from the raw payload's
optional top-level `type` field. -/
def legacyStatus (type_ : Option String) : String :=
  if type_ = some "booking_created" then "created"
  else if type_ = some "booking_canceled" then "canceled"
  else "changed"

/-- The booking branch of the legacy handler: same lead-time condition and
same record fields as `handleBookingChange`, except `status`. -/
def legacyHandleBooking (ctx : Ctx) (type_ : Option String)
    (ev : BookingEvent) : Option ReservationUpdate :=
  if jsLtQ (hoursUntilArrival ctx ev.booking.date_arrival) (threshold ctx) then
    some { bookingChangeRecord ctx ev with status := legacyStatus type_ }
  else
    none

/-! ## Auxiliary notions used by the theorems -/

/-- The rows the dispatch policy attempts to create for a batch, in event
order, before database outcomes are applied. -/
def pendingRecords (ctx : Ctx) : List LodgifyWebhookEvent → List ReservationUpdate
  | [] => []
  | .booking_change ev :: rest =>
      (handleBookingChange ctx ev).toList ++ pendingRecords ctx rest
  | .rate_change _ :: rest => pendingRecords ctx rest
  | .availability_change _ :: rest => pendingRecords ctx rest
  | .guest_message_received _ :: rest => pendingRecords ctx rest

/-- Number of create calls a batch issues. -/
def attemptCount (ctx : Ctx) (es : List LodgifyWebhookEvent) : Nat :=
  (pendingRecords ctx es).length

/-- Apply the database outcome oracle to a list of attempted rows starting
at call index `i`: each row is kept exactly when its own create call
succeeds. -/
def applyDb (dbOk : Nat → Bool) : Nat → List ReservationUpdate → List ReservationUpdate
  | _, [] => []
  | i, r :: rs => (if dbOk i then [r] else []) ++ applyDb dbOk (i + 1) rs

/-! ## Concrete sample data (used by witnesses and counterexamples) -/

/-- A concrete `booking` snapshot: property 123, status `"Booked"`,
arrival/departure date strings `"arr"`/`"dep"`. -/
def sampleBooking : Booking :=
  { type := "Booking", id := 9001, date_arrival := "arr",
    date_departure := "dep", date_created := "crt", property_id := 123,
    property_name := "Villa", property_image_url := "img",
    status := "Booked", room_types := [], add_ons := [],
    currency_code := "EUR", source := "Manual", source_text := "m",
    notes := none, language := "en", ip_address := none, ip_country := none,
    is_policy_active := true, external_url := none, nights := 2,
    promotion_code := none }

/-- A concrete `guest` snapshot. -/
def sampleGuest : Guest :=
  { uid := "g-1", name := "Alice", email := "a@b.c", phone_number := "1",
    country := none, country_code := none }

/-- A concrete amount breakdown. -/
def sampleAmount : Amount :=
  { amount := "1", total_room_rate_amount := "1", total_fees_amount := "0",
    total_taxes_amount := "0", total_promotions_amount := "0" }

/-- A concrete `current_order` snapshot. -/
def sampleOrder : CurrentOrder :=
  { id := 1, property_id := 123, currency_code := "EUR", status := "Agreed",
    amount_gross := sampleAmount, amount_net := sampleAmount,
    amount_vat := sampleAmount, date_agreed := none,
    cancellation_policy_text := none, security_deposit_text := none,
    scheduled_policy_text := none, rate_policy_name := none,
    rental_agreement_accepted := true, owner_payout := 0 }

/-- A concrete `subowner` snapshot. -/
def sampleSubowner : Subowner :=
  { user_id := 7, first_name := "Bob", last_name := "B", email := "b@b.c",
    phone := "2" }

/-- A concrete decoded `booking_change` event. -/
def sampleEvent : BookingEvent :=
  { booking := sampleBooking, guest := sampleGuest,
    current_order := sampleOrder, subowner := sampleSubowner,
    booking_total_amount := "1", booking_currency_code := "EUR",
    total_transactions := ⟨"1"⟩, balance_due := "0" }

/-- A concrete date parser: `"arr"` is 1 hour after epoch, `"dep"` is 25
hours after epoch, anything else is an invalid date. -/
def sampleDateParse : String → Option Int :=
  fun s =>
    if s = "arr" then some 3600000
    else if s = "dep" then some 90000000
    else none

/-- A concrete `parseFloat`: parses only `"72"`; everything else (the
empty string included) is NaN. -/
def samplePF : String → Option ℚ :=
  fun s => if s = "72" then some 72 else none

/-- A concrete request context: threshold env unset, clock at epoch.  With
`sampleDateParse`, `sampleEvent` arrives 1 hour from now. -/
def sampleCtx : Ctx :=
  { dateParse := sampleDateParse, parseFloatFn := samplePF,
    envThreshold := none, now := 0 }

/-- A concrete valid `rate_change` JSON element. -/
def rateChangeJson (pid : Int) : Json :=
  .obj [("action", .str "rate_change"), ("property_id", .num pid),
        ("room_type_ids", .arr [.num 2])]

/-- A concrete JSON element with an unrecognized `action`. -/
def badActionJson : Json :=
  .obj [("action", .str "mystery_event")]

/-- A well-formed `booking` JSON object (every field of the zod `booking`
object schema present and well-typed). -/
def c5BookingJson : Json :=
  .obj [("type", .str "Booking"), ("id", .num 9001),
        ("date_arrival", .str "arr"), ("date_departure", .str "dep"),
        ("date_created", .str "crt"), ("property_id", .num 123),
        ("property_name", .str "Villa"), ("property_image_url", .str "img"),
        ("status", .str "Booked"),
        ("room_types", .arr [.obj [("id", .num 1), ("room_type_id", .num 2),
          ("image_url", .null), ("name", .str "Room"), ("people", .num 2)]]),
        ("add_ons", .arr []), ("currency_code", .str "EUR"),
        ("source", .str "Manual"), ("source_text", .str "m"),
        ("notes", .null), ("language", .str "en"), ("ip_address", .null),
        ("ip_country", .null), ("is_policy_active", .bool true),
        ("external_url", .null), ("nights", .num 4),
        ("promotion_code", .null)]

/-- A well-formed `guest` JSON object. -/
def c5GuestJson : Json :=
  .obj [("uid", .str "g-1"), ("name", .str "Alice"),
        ("email", .str "a@b.c"), ("phone_number", .str "1"),
        ("country", .null), ("country_code", .null)]

/-- Fields of a single `booking_change` payload whose booking and guest
snapshots are well-formed but whose `current_order`, `subowner` and
financial fields (`booking_total_amount`, `booking_currency_code`,
`total_transactions`, `balance_due`) are absent. -/
def c5Fields : List (String × Json) :=
  [("action", .str "booking_change"), ("booking", c5BookingJson),
   ("guest", c5GuestJson)]

/-- The payload built from `c5Fields`. -/
def c5Payload : Json := .obj c5Fields

/-- A well-formed amount JSON object. -/
def amountJson : Json :=
  .obj [("amount", .str "1"), ("total_room_rate_amount", .str "1"),
        ("total_fees_amount", .str "0"), ("total_taxes_amount", .str "0"),
        ("total_promotions_amount", .str "0")]

/-- A well-formed `current_order` JSON object. -/
def orderJson : Json :=
  .obj [("id", .num 1), ("property_id", .num 123),
        ("currency_code", .str "EUR"), ("status", .str "Agreed"),
        ("amount_gross", amountJson), ("amount_net", amountJson),
        ("amount_vat", amountJson), ("date_agreed", .null),
        ("cancellation_policy_text", .null),
        ("security_deposit_text", .null), ("scheduled_policy_text", .null),
        ("rate_policy_name", .null),
        ("rental_agreement_accepted", .bool true), ("owner_payout", .num 0)]

/-- A well-formed `subowner` JSON object. -/
def subownerJson : Json :=
  .obj [("user_id", .num 7), ("first_name", .str "Bob"),
        ("last_name", .str "B"), ("email", .str "b@b.c"),
        ("phone", .str "2")]

/-- A complete, schema-valid `booking_change` JSON payload. -/
def fullBookingJson : Json :=
  .obj [("action", .str "booking_change"), ("booking", c5BookingJson),
        ("guest", c5GuestJson), ("current_order", orderJson),
        ("subowner", subownerJson), ("booking_total_amount", .str "1"),
        ("booking_currency_code", .str "EUR"),
        ("total_transactions", .obj [("amount", .str "1")]),
        ("balance_due", .str "0")]

/-- The `booking` snapshot `fullBookingJson` decodes to. -/
def fullBooking : Booking :=
  { sampleBooking with room_types := [⟨1, 2, none, "Room", 2⟩], nights := 4 }

/-- The event `fullBookingJson` decodes to. -/
def fullEvent : BookingEvent :=
  { booking := fullBooking, guest := sampleGuest,
    current_order := sampleOrder, subowner := sampleSubowner,
    booking_total_amount := "1", booking_currency_code := "EUR",
    total_transactions := ⟨"1"⟩, balance_due := "0" }

/-! ## Helper lemmas -/

/-- `s || ''` is the identity on strings. -/
lemma jsStringOr_empty (s : String) : jsStringOr s "" = s := by
  unfold jsStringOr
  split <;> simp_all

/-- `mapM'` over `Option` fails as soon as one element fails. -/
lemma mapM_aux_eq_none_of_mem {α β : Type} (f : α → Option β) :
    ∀ {xs : List α} {x : α}, x ∈ xs → f x = none → xs.mapM' f = none := by
  intro xs
  induction xs with
  | nil => intro x hx; cases hx
  | cons a as ih =>
      intro x hx hf
      rw [List.mapM'_cons]
      rcases List.mem_cons.mp hx with h | h
      · subst h; simp [hf]
      · cases ha : f a <;> simp [ha, ih h hf]

/-- `mapM` over `Option` fails as soon as one element fails. -/
lemma mapM_option_eq_none_of_mem {α β : Type} (f : α → Option β)
    {xs : List α} {x : α} (hx : x ∈ xs) (hf : f x = none) :
    xs.mapM f = none := by
  rw [← List.mapM'_eq_mapM]
  exact mapM_aux_eq_none_of_mem f hx hf

/-- A successful `mapM'` over `Option` maps each input to the output in
the same position. -/
lemma mapM_aux_forall₂ {α β : Type} (f : α → Option β) :
    ∀ {xs : List α} {ys : List β}, xs.mapM' f = some ys →
      List.Forall₂ (fun a b => f a = some b) xs ys := by
  intro xs
  induction xs with
  | nil =>
      intro ys h
      simp only [List.mapM'_nil, Option.pure_def, Option.some.injEq] at h
      subst h
      exact .nil
  | cons a as ih =>
      intro ys h
      rw [List.mapM'_cons] at h
      cases ha : f a with
      | none => simp [ha] at h
      | some b =>
          cases has : as.mapM' f with
          | none => simp [ha, has] at h
          | some bs =>
              simp only [ha, has, Option.bind_eq_bind, Option.some_bind,
                Option.pure_def, Option.some.injEq] at h
              subst h
              exact .cons ha (ih has)

/-- A successful `mapM` over `Option` maps each input to the output in
the same position. -/
lemma mapM_option_forall₂ {α β : Type} (f : α → Option β)
    {xs : List α} {ys : List β} (h : xs.mapM f = some ys) :
    List.Forall₂ (fun a b => f a = some b) xs ys := by
  rw [← List.mapM'_eq_mapM] at h
  exact mapM_aux_forall₂ f h

/-- The single-event discriminated union never matches a JSON array (an
array has no `action` field). -/
lemma parseWebhookEvent_arr (xs : List Json) :
    parseWebhookEvent (.arr xs) = none := rfl

/-- On an array, the union always takes the `z.array` branch. -/
lemma parseWebhookPayload_arr (xs : List Json) :
    parseWebhookPayload (.arr xs) =
      (xs.mapM parseWebhookEvent).map Sum.inr := rfl

/-- The event loop equals the attempted rows filtered by each row's own
create outcome. -/
lemma processEvents_eq_applyDb (ctx : Ctx) (dbOk : Nat → Bool) :
    ∀ (es : List LodgifyWebhookEvent) (i : Nat),
      processEvents ctx dbOk es i = applyDb dbOk i (pendingRecords ctx es) := by
  intro es
  induction es with
  | nil => intro i; rfl
  | cons ev rest ih =>
      intro i
      cases ev with
      | booking_change be =>
          cases hb : handleBookingChange ctx be with
          | none => simp [processEvents, pendingRecords, hb, ih]
          | some r => simp [processEvents, pendingRecords, hb, applyDb, ih]
      | rate_change e => simp [processEvents, pendingRecords, ih]
      | availability_change e => simp [processEvents, pendingRecords, ih]
      | guest_message_received e => simp [processEvents, pendingRecords, ih]

/-- Attempted rows of a concatenated batch. -/
lemma pendingRecords_append (ctx : Ctx) :
    ∀ (es₁ es₂ : List LodgifyWebhookEvent),
      pendingRecords ctx (es₁ ++ es₂) =
        pendingRecords ctx es₁ ++ pendingRecords ctx es₂ := by
  intro es₁ es₂
  induction es₁ with
  | nil => rfl
  | cons ev rest ih =>
      cases ev with
      | booking_change be => simp [pendingRecords, ih]
      | rate_change e => simp [pendingRecords, ih]
      | availability_change e => simp [pendingRecords, ih]
      | guest_message_received e => simp [pendingRecords, ih]

/-- Database outcomes are applied per create call, by call index. -/
lemma applyDb_append (dbOk : Nat → Bool) :
    ∀ (rs₁ rs₂ : List ReservationUpdate) (i : Nat),
      applyDb dbOk i (rs₁ ++ rs₂) =
        applyDb dbOk i rs₁ ++ applyDb dbOk (i + rs₁.length) rs₂ := by
  intro rs₁
  induction rs₁ with
  | nil => intro rs₂ i; simp [applyDb]
  | cons r rs ih =>
      intro rs₂ i
      simp only [List.cons_append, applyDb, List.length_cons]
      rw [show rs.append rs₂ = rs ++ rs₂ from rfl, ih, List.append_assoc]
      have harith : i + 1 + rs.length = i + (rs.length + 1) := by omega
      rw [harith]

/-- If no booking qualifies, the batch writes nothing. -/
lemma pendingRecords_eq_nil (ctx : Ctx)
    (h : ∀ ev, handleBookingChange ctx ev = none) :
    ∀ es : List LodgifyWebhookEvent, pendingRecords ctx es = [] := by
  intro es
  induction es with
  | nil => rfl
  | cons ev rest ih =>
      cases ev with
      | booking_change be => simp [pendingRecords, h be, ih]
      | rate_change e => simp [pendingRecords, ih]
      | availability_change e => simp [pendingRecords, ih]
      | guest_message_received e => simp [pendingRecords, ih]

/-! ## Claims -/

/-- C1: a decoded `booking_change` event creates a Reservation Update
record iff the hours until arrival (arrival minus now, divided by one
hour — timestamps are in ms, so `/ 3600000`) is strictly below the parsed
threshold; the threshold string defaults to `"72"` when
`CLEAN_NOTIFY_THRESHOLD_HOURS` is unset; an arrival exactly `threshold`
hours from now creates no record, and an arrival one second earlier
does. -/
theorem C1_threshold_strict_iff (ctx : Ctx) (ev : BookingEvent) (t : Int)
    (th : ℚ) (hdate : ctx.dateParse ev.booking.date_arrival = some t)
    (hth : ctx.parseFloatFn (thresholdString ctx.envThreshold) = some th) :
    ((handleBookingChange ctx ev).isSome ↔
      ((t : ℚ) - (ctx.now : ℚ)) / 3600000 < th)
    ∧ (ctx.envThreshold = none → thresholdString ctx.envThreshold = "72")
    ∧ ((t : ℚ) = (ctx.now : ℚ) + th * 3600000 →
        handleBookingChange ctx ev = none)
    ∧ ((t : ℚ) = (ctx.now : ℚ) + th * 3600000 - 1000 →
        (handleBookingChange ctx ev).isSome = true) := by
  have hth72 : threshold ctx = some th := by rw [threshold, hth]
  have hhours : hoursUntilArrival ctx ev.booking.date_arrival =
      some (((t : ℚ) - (ctx.now : ℚ)) / 3600000) := by
    rw [hoursUntilArrival, hdate]
    rfl
  have key : handleBookingChange ctx ev =
      if ((t : ℚ) - (ctx.now : ℚ)) / 3600000 < th then
        some (bookingChangeRecord ctx ev)
      else none := by
    unfold handleBookingChange
    rw [hhours, hth72]
    simp [jsLtQ]
  refine ⟨?_, ?_, ?_, ?_⟩
  · rw [key]
    split <;> simp_all
  · intro h
    simp [thresholdString, h]
  · intro heq
    have hzero : ((t : ℚ) - (ctx.now : ℚ)) / 3600000 = th := by
      rw [heq]
      ring_nf
    rw [key, hzero]
    simp
  · intro heq
    have hlt : ((t : ℚ) - (ctx.now : ℚ)) / 3600000 < th := by
      rw [heq]
      have hrw : ((ctx.now : ℚ) + th * 3600000 - 1000 - (ctx.now : ℚ)) / 3600000
          = th - 1000 / 3600000 := by
        field_simp
        ring
      rw [hrw]
      have hpos : (0 : ℚ) < 1000 / 3600000 := by norm_num
      linarith
    rw [key]
    simp [hlt]

/-- C1 witness: `sampleEvent` arrives 1 hour after `sampleCtx.now` and the
unset threshold parses to 72, so a record is created. -/
theorem C1_threshold_strict_iff_witness :
    sampleCtx.dateParse sampleEvent.booking.date_arrival = some 3600000
    ∧ sampleCtx.parseFloatFn (thresholdString sampleCtx.envThreshold) = some 72
    ∧ ((handleBookingChange sampleCtx sampleEvent).isSome ↔
        (((3600000 : Int) : ℚ) - ((sampleCtx.now : Int) : ℚ)) / 3600000 < 72) :=
  ⟨by rfl, by rfl,
   (C1_threshold_strict_iff sampleCtx sampleEvent 3600000 72 (by rfl)
     (by rfl)).1⟩

/-- C2: a record created for a `booking_change` carries the guest's name
(the code's `|| ''` maps an empty name to the empty string, hence the
record always equals the guest name), the parsed arrival and departure
dates, the raw booking status, and the stringified property id. -/
theorem C2_record_contents (ctx : Ctx) (ev : BookingEvent)
    (r : ReservationUpdate) (h : handleBookingChange ctx ev = some r) :
    r.guestName = ev.guest.name
    ∧ r.checkInDate = ctx.dateParse ev.booking.date_arrival
    ∧ r.checkOutDate = ctx.dateParse ev.booking.date_departure
    ∧ r.status = ev.booking.status
    ∧ r.listingId = toString ev.booking.property_id := by
  unfold handleBookingChange at h
  split at h
  · injection h with h'
    subst h'
    refine ⟨?_, rfl, rfl, rfl, rfl⟩
    simp [bookingChangeRecord, jsStringOr_empty]
  · cases h

/-- C2 witness: the concrete record for `sampleEvent`. -/
theorem C2_record_contents_witness :
    handleBookingChange sampleCtx sampleEvent =
      some { guestName := "Alice", checkInDate := some 3600000,
             checkOutDate := some 90000000, status := "Booked",
             listingId := "123" }
    ∧ ("Alice" = sampleEvent.guest.name
        ∧ (some (3600000 : Int) : Option Int) =
            sampleCtx.dateParse sampleEvent.booking.date_arrival
        ∧ (some (90000000 : Int) : Option Int) =
            sampleCtx.dateParse sampleEvent.booking.date_departure
        ∧ "Booked" = sampleEvent.booking.status
        ∧ "123" = toString sampleEvent.booking.property_id) := by
  have h : handleBookingChange sampleCtx sampleEvent =
      some { guestName := "Alice", checkInDate := some 3600000,
             checkOutDate := some 90000000, status := "Booked",
             listingId := "123" } := by
    simp [handleBookingChange, jsLtQ, hoursUntilArrival, threshold,
      thresholdString, sampleCtx, sampleDateParse, samplePF, sampleEvent,
      sampleBooking, bookingChangeRecord, jsStringOr, sampleGuest]
    rfl
  exact ⟨h, C2_record_contents sampleCtx sampleEvent _ h⟩

/-- C7: a decoded `rate_change`, `availability_change` or
`guest_message_received` event contributes nothing to the Reservation
Update store: the event loop on such an event equals the loop on the rest
of the batch, so only `booking_change` events ever write. -/
theorem C7_non_booking_no_write (ctx : Ctx) (dbOk : Nat → Bool)
    (ev : LodgifyWebhookEvent) (rest : List LodgifyWebhookEvent) (i : Nat)
    (h : ∀ be, ev ≠ LodgifyWebhookEvent.booking_change be) :
    processEvents ctx dbOk (ev :: rest) i = processEvents ctx dbOk rest i := by
  cases ev with
  | booking_change be => exact absurd rfl (h be)
  | rate_change e => rfl
  | availability_change e => rfl
  | guest_message_received e => rfl

/-- C7 witness: a one-event `rate_change` batch writes nothing. -/
theorem C7_non_booking_no_write_witness :
    (∀ be, LodgifyWebhookEvent.rate_change ⟨1, [2]⟩ ≠
      LodgifyWebhookEvent.booking_change be)
    ∧ processEvents sampleCtx (fun _ => true)
        [LodgifyWebhookEvent.rate_change ⟨1, [2]⟩] 0 =
      processEvents sampleCtx (fun _ => true) [] 0 :=
  ⟨fun _ h => LodgifyWebhookEvent.noConfusion h,
   C7_non_booking_no_write sampleCtx (fun _ => true) _ [] 0
     (fun _ h => LodgifyWebhookEvent.noConfusion h)⟩

/-- C8: a non-POST request is answered 405 with `Allow: POST`, nothing is
persisted, and the outcome does not depend on the request body (no
decoding takes place). -/
theorem C8_non_post_405 (ctx : Ctx) (dbOk : Nat → Bool) (req : HttpRequest)
    (h : req.method ≠ "POST") :
    handler ctx dbOk req = (⟨405, some "POST", .methodNotAllowed⟩, [])
    ∧ ∀ b : Json, handler ctx dbOk ⟨req.method, b⟩ = handler ctx dbOk req := by
  have h1 : ∀ b : Json, handler ctx dbOk ⟨req.method, b⟩ =
      (⟨405, some "POST", .methodNotAllowed⟩, []) := by
    intro b
    unfold handler
    simp [h]
  have h0 : handler ctx dbOk req =
      (⟨405, some "POST", .methodNotAllowed⟩, []) := by
    unfold handler
    simp [h]
  exact ⟨h0, fun b => (h1 b).trans h0.symm⟩

/-- C8 witness: a GET request with a valid body is still 405. -/
theorem C8_non_post_405_witness :
    ("GET" : String) ≠ "POST"
    ∧ handler sampleCtx (fun _ => true) ⟨"GET", rateChangeJson 1⟩ =
        (⟨405, some "POST", .methodNotAllowed⟩, []) :=
  ⟨by decide,
   (C8_non_post_405 sampleCtx (fun _ => true) ⟨"GET", rateChangeJson 1⟩
     (by decide)).1⟩

/-- C3: on any valid POST payload the response is 200 regardless of
database outcomes, and the persisted rows are exactly the attempted rows
filtered by each row's own create outcome — a failed create is dropped
(caught and logged, not retried) without affecting any other event's
row. -/
theorem C3_db_failure_isolated (ctx : Ctx) (dbOk : Nat → Bool)
    (req : HttpRequest) (p : LodgifyWebhookEvent ⊕ List LodgifyWebhookEvent)
    (hm : req.method = "POST") (hp : parseWebhookPayload req.body = some p) :
    (handler ctx dbOk req).1 = ⟨200, none, .processed⟩
    ∧ (handler ctx dbOk req).2 =
        applyDb dbOk 0 (pendingRecords ctx (eventList p)) := by
  unfold handler
  simp [hm, hp, processEvents_eq_applyDb]

/-- C3 witness: a three-event batch (booking, rate change, booking) whose
first create call fails still answers 200 and keeps the second booking's
row. -/
theorem C3_db_failure_isolated_witness :
    parseWebhookPayload (.arr [fullBookingJson, rateChangeJson 7,
        fullBookingJson]) =
      some (.inr [.booking_change fullEvent, .rate_change ⟨7, [2]⟩,
        .booking_change fullEvent])
    ∧ (handler sampleCtx (fun i => i != 0)
        ⟨"POST", .arr [fullBookingJson, rateChangeJson 7,
          fullBookingJson]⟩).1 = ⟨200, none, .processed⟩
    ∧ (handler sampleCtx (fun i => i != 0)
        ⟨"POST", .arr [fullBookingJson, rateChangeJson 7,
          fullBookingJson]⟩).2 =
        applyDb (fun i => i != 0) 0 (pendingRecords sampleCtx
          (eventList (.inr [.booking_change fullEvent, .rate_change ⟨7, [2]⟩,
            .booking_change fullEvent]))) := by
  have hp : parseWebhookPayload (.arr [fullBookingJson, rateChangeJson 7,
      fullBookingJson]) =
      some (.inr [.booking_change fullEvent, .rate_change ⟨7, [2]⟩,
        .booking_change fullEvent]) := by rfl
  have h := C3_db_failure_isolated sampleCtx (fun i => i != 0)
    ⟨"POST", .arr [fullBookingJson, rateChangeJson 7, fullBookingJson]⟩
    (.inr [.booking_change fullEvent, .rate_change ⟨7, [2]⟩,
      .booking_change fullEvent]) rfl hp
  exact ⟨hp, h.1, h.2⟩

/-- C4: if any element of an array payload fails the discriminated union
(missing or unrecognized `action`, or ill-typed variant fields), the whole
payload is rejected; a non-array payload whose single element fails is
rejected; and a POST request with a rejected payload is answered 400 with
the invalid-payload body and persists nothing. -/
theorem C4_invalid_payload_rejected :
    (∀ (xs : List Json) (x : Json), x ∈ xs → parseWebhookEvent x = none →
        parseWebhookPayload (.arr xs) = none)
    ∧ (∀ j : Json, (∀ xs, j ≠ .arr xs) → parseWebhookEvent j = none →
        parseWebhookPayload j = none)
    ∧ (∀ (ctx : Ctx) (dbOk : Nat → Bool) (req : HttpRequest),
        req.method = "POST" → parseWebhookPayload req.body = none →
        handler ctx dbOk req = (⟨400, none, .invalidPayload⟩, [])) := by
  refine ⟨?_, ?_, ?_⟩
  · intro xs x hx hparse
    rw [parseWebhookPayload_arr,
      mapM_option_eq_none_of_mem parseWebhookEvent hx hparse]
    rfl
  · intro j hnotarr hparse
    unfold parseWebhookPayload
    rw [hparse]
    cases j with
    | arr xs => exact absurd rfl (hnotarr xs)
    | null => rfl
    | bool b => rfl
    | num n => rfl
    | str s => rfl
    | obj fields => rfl
  · intro ctx dbOk req hm hp
    unfold handler
    simp [hm, hp]

/-- C4 witness: a batch with one unrecognized `action` is wholly rejected
and the POST is answered 400 with no rows. -/
theorem C4_invalid_payload_rejected_witness :
    badActionJson ∈ [rateChangeJson 1, badActionJson]
    ∧ parseWebhookEvent badActionJson = none
    ∧ parseWebhookPayload (.arr [rateChangeJson 1, badActionJson]) = none
    ∧ handler sampleCtx (fun _ => true)
        ⟨"POST", .arr [rateChangeJson 1, badActionJson]⟩ =
        (⟨400, none, .invalidPayload⟩, []) := by
  have hmem : badActionJson ∈ [rateChangeJson 1, badActionJson] :=
    List.mem_cons_of_mem _ (List.mem_singleton.mpr rfl)
  have hbad : parseWebhookEvent badActionJson = none := by rfl
  have hall := C4_invalid_payload_rejected
  have hrej := hall.1 [rateChangeJson 1, badActionJson] badActionJson hmem hbad
  exact ⟨hmem, hbad, hrej,
    hall.2.2 sampleCtx (fun _ => true)
      ⟨"POST", .arr [rateChangeJson 1, badActionJson]⟩ rfl hrej⟩

/-- C6: a decoded array payload matches the input array element-wise in
order, and the event loop processes a batch sequentially — the result of
a concatenated batch is the first part's rows followed by the second
part's rows, the second part seeing only the create-call index advanced
by the first part's attempts (no event's processing depends on another
event's outcome). -/
theorem C6_order_preserved :
    (∀ (xs : List Json) (es : List LodgifyWebhookEvent),
        parseWebhookPayload (.arr xs) = some (.inr es) →
        List.Forall₂ (fun x e => parseWebhookEvent x = some e) xs es)
    ∧ (∀ (ctx : Ctx) (dbOk : Nat → Bool)
        (es₁ es₂ : List LodgifyWebhookEvent) (i : Nat),
        processEvents ctx dbOk (es₁ ++ es₂) i =
          processEvents ctx dbOk es₁ i ++
            processEvents ctx dbOk es₂ (i + attemptCount ctx es₁)) := by
  constructor
  · intro xs es h
    rw [parseWebhookPayload_arr] at h
    cases hm : xs.mapM parseWebhookEvent with
    | none => rw [hm] at h; cases h
    | some ys =>
        rw [hm] at h
        simp only [Option.map_some', Option.some.injEq, Sum.inr.injEq] at h
        subst h
        exact mapM_option_forall₂ _ hm
  · intro ctx dbOk es₁ es₂ i
    rw [processEvents_eq_applyDb, processEvents_eq_applyDb,
      processEvents_eq_applyDb, pendingRecords_append, applyDb_append]
    rfl

/-- C6 witness: a two-event batch decodes in order, and a split batch
processes as first part then second part. -/
theorem C6_order_preserved_witness :
    parseWebhookPayload (.arr [rateChangeJson 1, rateChangeJson 2]) =
      some (.inr [.rate_change ⟨1, [2]⟩, .rate_change ⟨2, [2]⟩])
    ∧ List.Forall₂ (fun x e => parseWebhookEvent x = some e)
        [rateChangeJson 1, rateChangeJson 2]
        [.rate_change ⟨1, [2]⟩, .rate_change ⟨2, [2]⟩]
    ∧ processEvents sampleCtx (fun _ => true)
        ([.booking_change fullEvent] ++ [.rate_change ⟨1, [2]⟩]) 0 =
        processEvents sampleCtx (fun _ => true) [.booking_change fullEvent] 0
          ++ processEvents sampleCtx (fun _ => true) [.rate_change ⟨1, [2]⟩]
              (0 + attemptCount sampleCtx [.booking_change fullEvent]) := by
  have hp : parseWebhookPayload (.arr [rateChangeJson 1, rateChangeJson 2]) =
      some (.inr [.rate_change ⟨1, [2]⟩, .rate_change ⟨2, [2]⟩]) := by rfl
  exact ⟨hp,
    C6_order_preserved.1 [rateChangeJson 1, rateChangeJson 2]
      [.rate_change ⟨1, [2]⟩, .rate_change ⟨2, [2]⟩] hp,
    C6_order_preserved.2 sampleCtx (fun _ => true)
      [.booking_change fullEvent] [.rate_change ⟨1, [2]⟩] 0⟩

/-- C5 counterexample: a `booking_change` payload with well-formed booking
and guest snapshots but without `current_order`, `subowner` and the
financial fields is rejected by `lodgifyWebhookEventSchema` — those
snapshots are required, not optional, in the zod schema. -/
theorem C5_counterexample :
    ((c5Payload.getField "booking").bind parseBooking).isSome = true
    ∧ ((c5Payload.getField "guest").bind parseGuest).isSome = true
    ∧ c5Payload.getField "current_order" = none
    ∧ c5Payload.getField "subowner" = none
    ∧ parseWebhookPayload c5Payload = none :=
  ⟨rfl, rfl, rfl, rfl, rfl⟩

/-- C5 (amended): a single-object `booking_change` payload without a
`current_order` field fails the discriminated union and hence the whole
schema, however well-formed its booking and guest snapshots are — the
order/financial and sub-owner snapshots are required by the zod schema
(they are optional only in the legacy un-validated TypeScript type). -/
theorem C5_order_snapshot_required (fields : List (String × Json))
    (ha : (Json.obj fields).getField "action" =
      some (.str "booking_change"))
    (hc : (Json.obj fields).getField "current_order" = none) :
    parseWebhookEvent (.obj fields) = none
    ∧ parseWebhookPayload (.obj fields) = none := by
  have h1 : parseBookingEvent (.obj fields) = none := by
    unfold parseBookingEvent
    rw [hc]
    cases ((Json.obj fields).getField "booking").bind parseBooking <;>
      cases ((Json.obj fields).getField "guest").bind parseGuest <;> rfl
  have h2 : parseWebhookEvent (.obj fields) = none := by
    have hev : parseWebhookEvent (.obj fields) =
        (parseBookingEvent (.obj fields)).map .booking_change := by
      unfold parseWebhookEvent
      rw [ha]
      rfl
    rw [hev, h1]
    rfl
  refine ⟨h2, ?_⟩
  unfold parseWebhookPayload
  rw [h2]

/-- C5 amended-claim witness: `c5Fields` satisfies the hypotheses and is
rejected. -/
theorem C5_order_snapshot_required_witness :
    (Json.obj c5Fields).getField "action" = some (.str "booking_change")
    ∧ (Json.obj c5Fields).getField "current_order" = none
    ∧ parseWebhookEvent (.obj c5Fields) = none
    ∧ parseWebhookPayload (.obj c5Fields) = none := by
  have h := C5_order_snapshot_required c5Fields rfl rfl
  exact ⟨rfl, rfl, h.1, h.2⟩

/-- The context of the C9 counterexample: the threshold env var is
present but empty; `parseFloat` of the empty string is NaN, yet the code
never sees it because `'' || '72'` falls back to `'72'`. -/
def ctx9 : Ctx :=
  { dateParse := sampleDateParse, parseFloatFn := samplePF,
    envThreshold := some "", now := 0 }

/-- C9 counterexample: with `CLEAN_NOTIFY_THRESHOLD_HOURS` present but
equal to the empty string — a string `parseFloat` maps to NaN — a record
IS created for a qualifying booking, because `env || '72'` replaces the
falsy empty string by `'72'` before `parseFloat` runs; so "present but
not parsing as a number implies no record is ever created" fails. -/
theorem C9_counterexample :
    ctx9.envThreshold = some "" ∧ ctx9.parseFloatFn "" = none
    ∧ (handleBookingChange ctx9 sampleEvent).isSome = true := by
  refine ⟨rfl, rfl, ?_⟩
  simp [handleBookingChange, jsLtQ, hoursUntilArrival, threshold,
    thresholdString, ctx9, sampleDateParse, samplePF, sampleEvent,
    sampleBooking]

/-- C9 (amended): if the threshold env var is present, non-empty and does
not parse (`parseFloat` yields NaN), then `hours < NaN` is false for every
event, no record is ever created, and a valid POST is still answered 200
with nothing persisted. -/
theorem C9_nan_threshold_disables (ctx : Ctx) (s : String)
    (ev : BookingEvent) (hs : ctx.envThreshold = some s) (hne : s ≠ "")
    (hnan : ctx.parseFloatFn s = none) :
    handleBookingChange ctx ev = none
    ∧ ∀ (dbOk : Nat → Bool) (req : HttpRequest)
        (p : LodgifyWebhookEvent ⊕ List LodgifyWebhookEvent),
        req.method = "POST" → parseWebhookPayload req.body = some p →
        (handler ctx dbOk req).1.status = 200
        ∧ (handler ctx dbOk req).2 = [] := by
  have hstr : thresholdString ctx.envThreshold = s := by
    rw [hs]
    simp [thresholdString, hne]
  have hth : threshold ctx = none := by
    rw [threshold, hstr, hnan]
  have hall : ∀ e, handleBookingChange ctx e = none := by
    intro e
    unfold handleBookingChange
    rw [hth]
    have hfalse : jsLtQ (hoursUntilArrival ctx e.booking.date_arrival) none
        = false := by
      cases hoursUntilArrival ctx e.booking.date_arrival <;> rfl
    simp [hfalse]
  refine ⟨hall ev, ?_⟩
  intro dbOk req p hm hp
  unfold handler
  simp [hm, hp, processEvents_eq_applyDb, pendingRecords_eq_nil ctx hall,
    applyDb]

/-- C9 amended-claim witness: env set to `"abc"` (NaN) disables creation
for `sampleEvent` and leaves a valid POST with an empty store. -/
theorem C9_nan_threshold_disables_witness :
    ({ dateParse := sampleDateParse, parseFloatFn := samplePF,
       envThreshold := some "abc", now := 0 : Ctx }).parseFloatFn "abc" = none
    ∧ handleBookingChange
        { dateParse := sampleDateParse, parseFloatFn := samplePF,
          envThreshold := some "abc", now := 0 } sampleEvent = none
    ∧ (handler
        { dateParse := sampleDateParse, parseFloatFn := samplePF,
          envThreshold := some "abc", now := 0 } (fun _ => true)
        ⟨"POST", rateChangeJson 1⟩).2 = [] := by
  have h := C9_nan_threshold_disables
    { dateParse := sampleDateParse, parseFloatFn := samplePF,
      envThreshold := some "abc", now := 0 } "abc" sampleEvent rfl
    (by decide) rfl
  exact ⟨rfl, h.1,
    (h.2 (fun _ => true) ⟨"POST", rateChangeJson 1⟩
      (.inl (.rate_change ⟨1, [2]⟩)) rfl (by rfl)).2⟩

/-- C10 counterexample: on the same accepted `booking_change` event, same
clock and same threshold, the two coexisting handlers create different
records — the legacy route stores the mapped status `"changed"` while the
schema-validated route stores the raw booking status `"Booked"`. -/
theorem C10_counterexample :
    legacyHandleBooking sampleCtx none sampleEvent =
      some { guestName := "Alice", checkInDate := some 3600000,
             checkOutDate := some 90000000, status := "changed",
             listingId := "123" }
    ∧ handleBookingChange sampleCtx sampleEvent =
      some { guestName := "Alice", checkInDate := some 3600000,
             checkOutDate := some 90000000, status := "Booked",
             listingId := "123" }
    ∧ legacyHandleBooking sampleCtx none sampleEvent ≠
        handleBookingChange sampleCtx sampleEvent := by
  have h1 : legacyHandleBooking sampleCtx none sampleEvent =
      some { guestName := "Alice", checkInDate := some 3600000,
             checkOutDate := some 90000000, status := "changed",
             listingId := "123" } := by
    simp [legacyHandleBooking, jsLtQ, hoursUntilArrival, threshold,
      thresholdString, sampleCtx, sampleDateParse, samplePF, sampleEvent,
      sampleBooking, bookingChangeRecord, jsStringOr, sampleGuest,
      legacyStatus]
    rfl
  have h2 : handleBookingChange sampleCtx sampleEvent =
      some { guestName := "Alice", checkInDate := some 3600000,
             checkOutDate := some 90000000, status := "Booked",
             listingId := "123" } := by
    simp [handleBookingChange, jsLtQ, hoursUntilArrival, threshold,
      thresholdString, sampleCtx, sampleDateParse, samplePF, sampleEvent,
      sampleBooking, bookingChangeRecord, jsStringOr, sampleGuest]
    rfl
  have hne : (some { guestName := "Alice", checkInDate := some 3600000,
                     checkOutDate := some 90000000, status := "changed",
                     listingId := "123" } : Option ReservationUpdate) ≠
      some { guestName := "Alice", checkInDate := some 3600000,
             checkOutDate := some 90000000, status := "Booked",
             listingId := "123" } := by decide
  refine ⟨h1, h2, ?_⟩
  rw [h1, h2]
  exact hne

/-- C10 (amended): both handler versions create a record under exactly
the same lead-time condition and agree on guest name, check-in/out dates
and listing id; the stored status differs in general — the legacy route
stores the mapped `'created'`/`'canceled'`/`'changed'` value from the raw
top-level `type` field while the schema-validated route stores the raw
booking status — so the records coincide exactly when the raw booking
status equals that mapped value. -/
theorem C10_handlers_agree_except_status (ctx : Ctx) (type_ : Option String)
    (ev : BookingEvent) :
    ((legacyHandleBooking ctx type_ ev).isSome ↔
      (handleBookingChange ctx ev).isSome)
    ∧ ∀ r₁ r₂, legacyHandleBooking ctx type_ ev = some r₁ →
        handleBookingChange ctx ev = some r₂ →
        r₁.guestName = r₂.guestName ∧ r₁.checkInDate = r₂.checkInDate
        ∧ r₁.checkOutDate = r₂.checkOutDate ∧ r₁.listingId = r₂.listingId
        ∧ r₁.status = legacyStatus type_ ∧ r₂.status = ev.booking.status
        ∧ (r₁ = r₂ ↔ legacyStatus type_ = ev.booking.status) := by
  cases hcond : jsLtQ (hoursUntilArrival ctx ev.booking.date_arrival)
      (threshold ctx) with
  | false =>
      constructor
      · simp [legacyHandleBooking, handleBookingChange, hcond]
      · intro r₁ r₂ h₁ h₂
        simp [legacyHandleBooking, hcond] at h₁
  | true =>
      constructor
      · simp [legacyHandleBooking, handleBookingChange, hcond]
      · intro r₁ r₂ h₁ h₂
        simp only [legacyHandleBooking, handleBookingChange, hcond,
          if_true] at h₁ h₂
        obtain rfl := Option.some.inj h₁.symm
        obtain rfl := Option.some.inj h₂.symm
        refine ⟨rfl, rfl, rfl, rfl, rfl, rfl, ?_⟩
        simp [bookingChangeRecord, ReservationUpdate.mk.injEq]

/-- C10 amended-claim witness: concrete instance at `sampleCtx`,
`sampleEvent`, no raw `type` field. -/
theorem C10_handlers_agree_except_status_witness :
    ((legacyHandleBooking sampleCtx none sampleEvent).isSome ↔
      (handleBookingChange sampleCtx sampleEvent).isSome) :=
  (C10_handlers_agree_except_status sampleCtx none sampleEvent).1

end HostPilot
